import Mathlib

/-!
Verification of `PublicReportResearch` against its specification.

This file shallowly embeds the parts of the repository that the claims
concern:

* `basic_ollama_agent_with_post.py` — the `OllamaAgent` class: tool-schema
  generation (`_generate_tool_schemas`), tool dispatch (`_execute_tool`)
  and the `invoke` pipeline with its error handling and structured-output
  parsing.
* `sec_downloader_1.py` / `sec_downloader_2.py` — the per-metric
  value-selection loops of `SECBankDataDownloader.extract_financial_metrics`
  in both downloader versions.

Python values that matter to the claims are modelled by a small value type;
a Python callable that may raise is modelled as a function into
`Except String v`, the `String` being `str(e)` of the raised exception.
-/

/-- A Python runtime value, as far as the claims need to distinguish them. -/
inductive PyValue
  | str (s : String)
  | int (n : Int)
  | none
deriving DecidableEq, Repr

/-- The `arguments` mapping handed to a tool call (`Dict[str, Any]`). -/
def Args := List (String × PyValue)

/-- A parameter annotation as `inspect` reports it: `inspect.Parameter.empty`
when the parameter is unannotated, one of the builtin classes `int`, `float`,
`bool`, `list`, or any other annotation object (carried as its repr). -/
inductive PyAnn
  | empty
  | int
  | float
  | bool
  | list
  | other (repr : String)
deriving DecidableEq, Repr

/-- One formal parameter of a Python callable: its name, its annotation and
whether it has a default value (`param.default != inspect.Parameter.empty`
is `hasDefault = true`). -/
structure PyParam where
  name : String
  annotation : PyAnn
  hasDefault : Bool
deriving DecidableEq, Repr

/-- A Python callable as the agent sees it: its `__name__`, its docstring
(`inspect.getdoc(tool) or ""`, so `""` stands for an absent docstring), its
formal parameters in signature order, and its runtime behaviour — `.ok v`
when the call returns `v`, `.error m` when it raises an exception `e` with
`str(e) = m`. -/
structure Tool where
  name : String
  docstring : String
  params : List PyParam
  run : Args → Except String PyValue

/-- `tool(**arguments)` wrapped in the `try/except` of `_execute_tool`
(lines 109–112): a returned value passes through, a raised exception `e`
becomes the string `f"Error executing {tool_name}: {str(e)}"`. -/
def callTool (t : Tool) (toolName : String) (arguments : Args) : PyValue :=
  match t.run arguments with
  | .ok v => v
  | .error m => .str ("Error executing " ++ toolName ++ ": " ++ m)

/-- `OllamaAgent._execute_tool` (lines 107–114): scan `self.tools` in order,
call the first tool whose `__name__` equals `tool_name` (converting a raised
exception into an error string), and if no tool matches return the literal
string `f"Tool {tool_name} not found"`. -/
def executeTool (tools : List Tool) (toolName : String) (arguments : Args) : PyValue :=
  match tools with
  | [] => .str ("Tool " ++ toolName ++ " not found")
  | t :: rest =>
    if t.name = toolName then callTool t toolName arguments
    else executeTool rest toolName arguments

/-- One entry of `schema["function"]["parameters"]["properties"]`
(lines 83–86): the inferred `"type"` and the `f"Parameter {param_name}"`
description. -/
structure SchemaProperty where
  type : String
  description : String
deriving DecidableEq, Repr

/-- The `"function"` part of a generated tool schema (lines 55–66): name,
description, the `"properties"` mapping in parameter order and the
`"required"` list.  The constant envelope fields (`"type": "function"`,
`"type": "object"`) carry no information and are omitted. -/
structure FunctionSchema where
  name : String
  description : String
  properties : List (String × SchemaProperty)
  required : List String
deriving DecidableEq, Repr

/-- Type inference for one parameter (lines 69–81): start from the default
`"string"`; when an annotation is present map the builtin classes `int`,
`float`, `bool`, `list` to `"integer"`, `"number"`, `"boolean"`, `"array"`,
and leave every other annotation at `"string"`. -/
def paramSchemaType (a : PyAnn) : String :=
  match a with
  | .empty => "string"
  | .int => "integer"
  | .float => "number"
  | .bool => "boolean"
  | .list => "array"
  | .other _ => "string"

/-- `docstring.split('\n')[0]`: the first line of a docstring, i.e. its
characters up to (excluding) the first newline. -/
def firstLine (s : String) : String :=
  ⟨s.data.takeWhile (fun c => c ≠ '\n')⟩

/-- The schema built for one callable by the loop body of
`_generate_tool_schemas` (lines 47–92): the properties dict gains one entry
per parameter in signature order, and a parameter joins `"required"` exactly
when it has no default value. -/
def toolFunctionSchema (t : Tool) : FunctionSchema :=
  { name := t.name
  , description :=
      if t.docstring ≠ "" then firstLine t.docstring else "Function " ++ t.name
  , properties := t.params.map fun p =>
      (p.name, { type := paramSchemaType p.annotation
               , description := "Parameter " ++ p.name })
  , required := (t.params.filter fun p => !p.hasDefault).map (·.name) }

/-- `OllamaAgent._generate_tool_schemas` (lines 38–94): one schema per
registered callable, appended in input order. -/
def generateToolSchemas (tools : List Tool) : List FunctionSchema :=
  tools.map toolFunctionSchema

/-- One element of `response['message']['tool_calls']`: the callee name and
arguments under the `'function'` key. -/
structure ToolCall where
  name : String
  arguments : Args

/-- The `response['message']` object of a successful, well-formed Ollama
reply: the `'content'` string and the optional `'tool_calls'` list
(`none` models the `'tool_calls'` key being absent). -/
structure ResponseMessage where
  content : String
  tool_calls : Option (List ToolCall)

/-- The outcome of the transport section of `invoke` (lines 143–149).
`failure m` covers every exception raised by `requests.post` (network
error), by `response.raise_for_status()` (non-2xx status) or by
`response.json()` (body not valid JSON); `m` is `str(e)` of that
exception.  `success msg` is a parsed reply. -/
inductive Transport
  | failure (excMsg : String)
  | success (message : ResponseMessage)

/-- The outcome of `json.loads(result['message'])` (line 175), abstracting
the Python `json` library: `decodeError m` when it raises
`json.JSONDecodeError` with `str(e) = m`; `obj fields` when it returns a
dict; `nonObj m` when it returns a non-dict value (list, number, string,
…), in which case the subsequent `self.output_schema(**parsed_output)`
raises `TypeError` with `str(e) = m`. -/
inductive JsonLoadOutcome
  | decodeError (msg : String)
  | obj (fields : List (String × PyValue))
  | nonObj (typeErrMsg : String)

/-- The configured structured-output contract (a Pydantic model class):
`validate fields` is `self.output_schema(**fields)` on a dict — `.ok v` a
constructed instance, `.error m` a raised `pydantic.ValidationError` (a
`ValueError`) with `str(e) = m`. -/
structure OutputSchema where
  validate : List (String × PyValue) → Except String PyValue

/-- What `result['structured_output']` holds when it is not `None`: either
a constructed model instance or the error string of lines 177–178. -/
inductive StructuredOutput
  | model (v : PyValue)
  | parseError (s : String)
deriving Repr

/-- One record appended to `result['tool_calls']` (lines 166–170). -/
structure ToolCallRecord where
  tool : String
  arguments : Args
  result : PyValue

/-- The dictionary returned by `invoke`: `error` is `none` on the success
path (lines 151–180, where the `'error'` key is absent) and `some` on the
exception path (lines 182–188). -/
structure InvokeResult where
  message : Option String
  tool_calls : List ToolCallRecord
  structured_output : Option StructuredOutput
  error : Option String

/-- The `OllamaAgent` state that `invoke` and `_execute_tool` consult.
`model_name`, `endpoint` and `proxies` only shape the outgoing request and
are irrelevant to the claims, so the transport outcome stands in for them. -/
structure OllamaAgent where
  tools : List Tool
  output_schema : Option OutputSchema

/-- The error dictionary of the outer `except` clause (lines 182–188). -/
def errorResult (excMsg : String) : InvokeResult :=
  { message := Option.none
  , tool_calls := []
  , structured_output := Option.none
  , error := Option.some ("Failed to invoke model: " ++ excMsg) }

/-- `OllamaAgent.invoke` (lines 116–188).  `transport` is the outcome of
lines 143–149 and `jsonLoads` abstracts `json.loads`.  On transport
failure the outer `except` returns `errorResult`.  On success the result
starts as `{'message': content, 'tool_calls': [], 'structured_output':
None}`; each tool call is dispatched through `executeTool` and recorded;
then, if a contract is configured and `result['message']` is truthy
(non-empty), the content is parsed: a `JSONDecodeError` or `ValueError`
becomes the `"Failed to parse structured output: …"` string, while the
`TypeError` raised by `**` on a non-dict escapes the inner `except` and is
caught by the outer one, discarding the whole result. -/
def OllamaAgent.invoke (agent : OllamaAgent) (transport : Transport)
    (jsonLoads : String → JsonLoadOutcome) : InvokeResult :=
  match transport with
  | .failure e => errorResult e
  | .success msg =>
    let toolRecords : List ToolCallRecord :=
      (msg.tool_calls.getD []).map fun tc =>
        { tool := tc.name
        , arguments := tc.arguments
        , result := executeTool agent.tools tc.name tc.arguments }
    let structured : Except String (Option StructuredOutput) :=
      match agent.output_schema with
      | Option.none => .ok Option.none
      | Option.some schema =>
        if msg.content = "" then .ok Option.none
        else
          match jsonLoads msg.content with
          | .decodeError m =>
            .ok (Option.some (.parseError ("Failed to parse structured output: " ++ m)))
          | .nonObj m => .error m
          | .obj fields =>
            match schema.validate fields with
            | .ok v => .ok (Option.some (.model v))
            | .error m =>
              .ok (Option.some (.parseError ("Failed to parse structured output: " ++ m)))
    match structured with
    | .error e => errorResult e
    | .ok so =>
      { message := Option.some msg.content
      , tool_calls := toolRecords
      , structured_output := so
      , error := Option.none }

/-!
`SECBankDataDownloader.extract_financial_metrics` — the per-metric
value-selection loops.  Version 1 is `sec_downloader_1.py` lines 200–216,
version 2 is `sec_downloader_2.py` lines 310–327.  Both scan, for one
target metric, the `possible_tags` list; for each tag present in `us_gaap`,
each unit-type entry list; and within it each fact entry.
-/

/-- One fact entry of `us_gaap[tag]['units'][unit_type]`: `endDate` models
`entry.get('end')`, `val` models `entry['val']` (`none` when the `'val'`
key is absent), `form` models `entry.get('form')`. -/
structure FactEntry where
  endDate : Option String
  val : Option Int
  form : Option String

/-- The `units` lists of the tags, keyed by tag name:
`us_gaap[tag]['units']` iterated in dict order, with a missing `'units'`
key giving the empty list (`.get('units', {})`). -/
def UsGaap := List (String × List (List FactEntry))

/-- Version 1's innermost loop (`sec_downloader_1.py` lines 205–210): scan
the entries of one unit type; at the first entry whose `end` equals the
period and that has a `val` and whose `form` is `'10-Q'` or `'10-K'`, set
`value` to that entry's `val` and `break`.  Entries matching the period
but with any other form are skipped. -/
def entryLoop1 (periodEnd : String) (value : Option Int) :
    List FactEntry → Option Int
  | [] => value
  | e :: rest =>
    if e.endDate = Option.some periodEnd ∧ e.val.isSome then
      if e.form = Option.some "10-Q" ∨ e.form = Option.some "10-K" then e.val
      else entryLoop1 periodEnd value rest
    else entryLoop1 periodEnd value rest

/-- Version 2's innermost loop (`sec_downloader_2.py` lines 315–321): the
same scan, but the assignment is guarded by
`if value is None or entry.get('form') == '10-Q'`; the `break` sits outside
that guard, so the loop still stops at the first qualifying entry whether
or not it assigned. -/
def entryLoop2 (periodEnd : String) (value : Option Int) :
    List FactEntry → Option Int
  | [] => value
  | e :: rest =>
    if e.endDate = Option.some periodEnd ∧ e.val.isSome then
      if e.form = Option.some "10-Q" ∨ e.form = Option.some "10-K" then
        if value = Option.none ∨ e.form = Option.some "10-Q" then e.val else value
      else entryLoop2 periodEnd value rest
    else entryLoop2 periodEnd value rest

/-- Version 1's unit-type loop with its `if value is not None: break`. -/
def unitLoop1 (periodEnd : String) (value : Option Int) :
    List (List FactEntry) → Option Int
  | [] => value
  | u :: rest =>
    let v := entryLoop1 periodEnd value u
    if v.isSome then v else unitLoop1 periodEnd v rest

/-- Version 2's unit-type loop with its `if value is not None: break`. -/
def unitLoop2 (periodEnd : String) (value : Option Int) :
    List (List FactEntry) → Option Int
  | [] => value
  | u :: rest =>
    let v := entryLoop2 periodEnd value u
    if v.isSome then v else unitLoop2 periodEnd v rest

/-- Version 1's tag loop: `if tag in us_gaap` guards the unit loop, and
`if value is not None: break` runs on every tag iteration. -/
def tagLoop1 (usGaap : UsGaap) (periodEnd : String) (value : Option Int) :
    List String → Option Int
  | [] => value
  | tag :: rest =>
    let v := match List.find? (fun kv => kv.1 == tag) usGaap with
             | Option.some kv => unitLoop1 periodEnd value kv.2
             | Option.none => value
    if v.isSome then v else tagLoop1 usGaap periodEnd v rest

/-- Version 2's tag loop. -/
def tagLoop2 (usGaap : UsGaap) (periodEnd : String) (value : Option Int) :
    List String → Option Int
  | [] => value
  | tag :: rest =>
    let v := match List.find? (fun kv => kv.1 == tag) usGaap with
             | Option.some kv => unitLoop2 periodEnd value kv.2
             | Option.none => value
    if v.isSome then v else tagLoop2 usGaap periodEnd v rest

/-- The value version 1 selects for one target metric and one period end
(`value = None` then the loops of lines 201–214). -/
def metricValue1 (usGaap : UsGaap) (possibleTags : List String)
    (periodEnd : String) : Option Int :=
  tagLoop1 usGaap periodEnd Option.none possibleTags

/-- The value version 2 selects for one target metric and one period end
(`value = None` then the loops of lines 311–325). -/
def metricValue2 (usGaap : UsGaap) (possibleTags : List String)
    (periodEnd : String) : Option Int :=
  tagLoop2 usGaap periodEnd Option.none possibleTags

/-!  Concrete instances used to exercise the theorems. -/

/-- Look an integer argument up in an `arguments` mapping. -/
def argInt (arguments : Args) (key : String) : Option Int :=
  match List.find? (fun kv => kv.1 == key) arguments with
  | Option.some (_, .int n) => Option.some n
  | _ => Option.none

/-- The `get_product` example tool of the source file (lines 194–198). -/
def getProduct : Tool :=
  { name := "get_product"
  , docstring := "Computes the product of two numbers."
  , params := [⟨"a", .int, false⟩, ⟨"b", .int, false⟩]
  , run := fun arguments =>
      match argInt arguments "a", argInt arguments "b" with
      | Option.some a, Option.some b => .ok (.int (a * b))
      | _, _ => .error "int() argument must be a number" }

/-- The `calculate_sum` example tool of the source file (lines 200–208). -/
def calculateSum : Tool :=
  { name := "calculate_sum"
  , docstring := "Calculate the sum of two numbers."
  , params := [⟨"a", .int, false⟩, ⟨"b", .int, false⟩]
  , run := fun arguments =>
      match argInt arguments "a", argInt arguments "b" with
      | Option.some a, Option.some b => .ok (.int (a + b))
      | _, _ => .error "unsupported operand type" }

/-- A tool that always raises (`str(e) = "division by zero"`). -/
def divideTool : Tool :=
  { name := "divide"
  , docstring := ""
  , params := [⟨"a", .int, false⟩, ⟨"b", .int, false⟩]
  , run := fun _ => .error "division by zero" }

/-- First registration of a duplicated tool name: returns `1`. -/
def dupToolFirst : Tool :=
  { name := "dup_tool", docstring := "", params := []
  , run := fun _ => .ok (.int 1) }

/-- Second registration of the same tool name: returns `2`. -/
def dupToolSecond : Tool :=
  { name := "dup_tool", docstring := "", params := []
  , run := fun _ => .ok (.int 2) }

/-- A structured-output contract whose validation succeeds on any dict. -/
def permissiveSchema : OutputSchema :=
  ⟨fun _ => .ok (.str "model instance")⟩

/-- A `json.loads` behaviour: only the literal `"{}"` parses (to the empty
dict); everything else — in particular the empty string — raises
`json.JSONDecodeError("Expecting value: line 1 column 1 (char 0)")`. -/
def jsonLoadsStrict : String → JsonLoadOutcome := fun s =>
  if s = "{}" then .obj []
  else .decodeError "Expecting value: line 1 column 1 (char 0)"

/-!  Theorems. -/

/-- `executeTool` dispatches to the first tool in registration order whose
`__name__` matches: the loop of lines 107–110 returns on the first hit. -/
theorem executeTool_eq_callTool_of_find (tools : List Tool) (toolName : String)
    (arguments : Args) (t : Tool)
    (h : List.find? (fun x => x.name == toolName) tools = Option.some t) :
    executeTool tools toolName arguments = callTool t toolName arguments := by
  induction tools with
  | nil => simp [List.find?] at h
  | cons a rest ih =>
    by_cases hname : a.name = toolName
    · rw [List.find?_cons_of_pos _ (by simp [hname])] at h
      cases h
      simp [executeTool, hname]
    · rw [List.find?_cons_of_neg _ (by simp [hname])] at h
      simp only [executeTool, if_neg hname]
      exact ih h

/-- When no registered tool's name matches, `executeTool` falls through the
loop to line 114. -/
theorem executeTool_not_found (tools : List Tool) (toolName : String)
    (arguments : Args) (h : ∀ t ∈ tools, t.name ≠ toolName) :
    executeTool tools toolName arguments =
      .str ("Tool " ++ toolName ++ " not found") := by
  induction tools with
  | nil => rfl
  | cons a rest ih =>
    simp only [executeTool, if_neg (h a (List.mem_cons_self a rest))]
    exact ih fun x hx => h x (List.mem_cons_of_mem a hx)

/-- C1, counterexample.  Two registered callables share the name
`"dup_tool"`; the last-registered one returns `2` on these arguments, yet
`_execute_tool` returns `1`: dispatch invokes the FIRST-registered
callable, not the last, because the loop of lines 107–110 returns on the
first `__name__` match. -/
theorem c1_last_wins_counterexample :
    dupToolSecond.run [] = Except.ok (PyValue.int 2) ∧
    callTool dupToolSecond "dup_tool" [] = PyValue.int 2 ∧
    executeTool [dupToolFirst, dupToolSecond] "dup_tool" [] = PyValue.int 1 ∧
    PyValue.int 1 ≠ PyValue.int 2 :=
  ⟨rfl, rfl, rfl, by decide⟩

/-- C1, amended.  For every registry in which some callable's `__name__`
matches the dispatched name, `_execute_tool` invokes the
first-registered matching callable (`List.find?` order): the FIRST
registration's behavior wins on lookup, not the second. -/
theorem c1_first_registration_wins (tools : List Tool) (toolName : String)
    (arguments : Args) (t : Tool)
    (h : List.find? (fun x => x.name == toolName) tools = Option.some t) :
    executeTool tools toolName arguments = callTool t toolName arguments :=
  executeTool_eq_callTool_of_find tools toolName arguments t h

/-- C1, witness: on the duplicated registry, the first-registered
`dup_tool` is the one found and its behavior (returning `1`) is what
dispatch produces. -/
theorem c1_first_registration_wins_witness :
    (List.find? (fun x => x.name == "dup_tool") [dupToolFirst, dupToolSecond] =
      Option.some dupToolFirst) ∧
    executeTool [dupToolFirst, dupToolSecond] "dup_tool" [] =
      callTool dupToolFirst "dup_tool" [] :=
  ⟨rfl, c1_first_registration_wins [dupToolFirst, dupToolSecond] "dup_tool" []
      dupToolFirst rfl⟩

/-- C3: dispatching a name that matches no registered callable's
`__name__` returns exactly the string `"Tool <name> not found"` (line
114).  `executeTool` is a total function, so no exception is raised. -/
theorem c3_unregistered_name_not_found (tools : List Tool) (toolName : String)
    (arguments : Args) (h : ∀ t ∈ tools, t.name ≠ toolName) :
    executeTool tools toolName arguments =
      .str ("Tool " ++ toolName ++ " not found") :=
  executeTool_not_found tools toolName arguments h

/-- C3, witness: `"get_weather"` is not a registered name of the example
registry, and dispatch returns the literal not-found string. -/
theorem c3_unregistered_name_not_found_witness :
    (∀ t ∈ [getProduct, calculateSum], t.name ≠ "get_weather") ∧
    executeTool [getProduct, calculateSum] "get_weather" [] =
      .str ("Tool " ++ "get_weather" ++ " not found") :=
  ⟨by decide, c3_unregistered_name_not_found [getProduct, calculateSum]
      "get_weather" [] (by decide)⟩

/-- C4: when the dispatched (first-matching) registered callable raises an
exception with message `m`, `_execute_tool` returns the string
`"Error executing <name>: <m>"` (lines 109–112) instead of propagating the
fault, and an `invoke` whose response carries that tool call still
completes: it returns the well-formed success dictionary recording the
error string in `tool_calls`, with no `error` field. -/
theorem c4_raising_tool_fault_contained (tools : List Tool) (toolName : String)
    (arguments : Args) (t : Tool) (m content : String)
    (jsonLoads : String → JsonLoadOutcome)
    (hfind : List.find? (fun x => x.name == toolName) tools = Option.some t)
    (hrun : t.run arguments = Except.error m) :
    executeTool tools toolName arguments =
      .str ("Error executing " ++ toolName ++ ": " ++ m) ∧
    OllamaAgent.invoke ⟨tools, Option.none⟩
        (.success ⟨content, Option.some [⟨toolName, arguments⟩]⟩) jsonLoads =
      { message := Option.some content
      , tool_calls := [⟨toolName, arguments,
          .str ("Error executing " ++ toolName ++ ": " ++ m)⟩]
      , structured_output := Option.none
      , error := Option.none } := by
  have h1 : executeTool tools toolName arguments =
      .str ("Error executing " ++ toolName ++ ": " ++ m) := by
    rw [executeTool_eq_callTool_of_find tools toolName arguments t hfind]
    simp [callTool, hrun]
  exact ⟨h1, by simp [OllamaAgent.invoke, h1]⟩

/-- C4, witness: `divideTool` raises `"division by zero"`; dispatch
converts it to the error string and the enclosing `invoke` completes. -/
theorem c4_raising_tool_fault_contained_witness :
    (List.find? (fun x => x.name == "divide") [divideTool] =
      Option.some divideTool) ∧
    (divideTool.run [] = Except.error "division by zero") ∧
    (executeTool [divideTool] "divide" [] =
      .str ("Error executing " ++ "divide" ++ ": " ++ "division by zero") ∧
    OllamaAgent.invoke ⟨[divideTool], Option.none⟩
        (.success ⟨"ok", Option.some [⟨"divide", []⟩]⟩) jsonLoadsStrict =
      { message := Option.some "ok"
      , tool_calls := [⟨"divide", [],
          .str ("Error executing " ++ "divide" ++ ": " ++ "division by zero")⟩]
      , structured_output := Option.none
      , error := Option.none }) :=
  ⟨rfl, rfl, c4_raising_tool_fault_contained [divideTool] "divide" []
      divideTool "division by zero" "ok" jsonLoadsStrict rfl rfl⟩

/-- C2: whatever the agent and however `json.loads` behaves, a transport
failure (non-2xx status, network error, or a response body that is not
valid JSON — all modelled by `Transport.failure`) makes `invoke` return
the dictionary of lines 182–188: `error` a non-empty string, `message`
null, `tool_calls` empty, `structured_output` null.  `invoke` is a total
function, so nothing is raised past the boundary. -/
theorem c2_transport_failure_returns_error_result (agent : OllamaAgent)
    (excMsg : String) (jsonLoads : String → JsonLoadOutcome) :
    (agent.invoke (.failure excMsg) jsonLoads).error =
      Option.some ("Failed to invoke model: " ++ excMsg) ∧
    ("Failed to invoke model: " ++ excMsg) ≠ "" ∧
    (agent.invoke (.failure excMsg) jsonLoads).message = Option.none ∧
    (agent.invoke (.failure excMsg) jsonLoads).tool_calls = [] ∧
    (agent.invoke (.failure excMsg) jsonLoads).structured_output =
      Option.none := by
  refine ⟨rfl, ?_, rfl, rfl, rfl⟩
  intro h
  have hlen : 24 + excMsg.length = 0 := by
    have hl := congrArg String.length h
    rw [String.length_append] at hl
    exact hl
  omega

/-- C5, counterexample.  A contract is configured and the assistant message
text is the empty string, which fails JSON parsing (`json.loads("")` raises
`JSONDecodeError`); yet `invoke` leaves `structured_output` null instead of
placing an error string there, because line 173's truthiness test
`if self.output_schema and result['message']` skips the parse for falsy
(empty) content.  So the claim fails for this failing text. -/
theorem c5_empty_text_counterexample :
    jsonLoadsStrict "" =
      .decodeError "Expecting value: line 1 column 1 (char 0)" ∧
    (OllamaAgent.invoke ⟨[], Option.some permissiveSchema⟩
        (.success ⟨"", Option.none⟩) jsonLoadsStrict).structured_output =
      Option.none ∧
    (OllamaAgent.invoke ⟨[], Option.some permissiveSchema⟩
        (.success ⟨"", Option.none⟩) jsonLoadsStrict).error = Option.none :=
  ⟨rfl, rfl, rfl⟩

/-- C5, amended: for every configured contract and every NON-EMPTY
assistant message text whose parsing raises `json.JSONDecodeError` or whose
validation raises a `ValueError`, `invoke` places the error string
`"Failed to parse structured output: <e>"` in `structured_output` rather
than failing the whole call, and the call completes without an `error`
field.  (The empty string is excluded by line 173's truthiness test, and a
non-dict JSON value raises a `TypeError` at `**` that the inner `except`
of line 177 does not catch.) -/
theorem c5_parse_failure_reported (tools : List Tool) (schema : OutputSchema)
    (msg : ResponseMessage) (jsonLoads : String → JsonLoadOutcome) (m : String)
    (hne : msg.content ≠ "")
    (hfail : jsonLoads msg.content = .decodeError m ∨
      ∃ fields, jsonLoads msg.content = .obj fields ∧
        schema.validate fields = Except.error m) :
    (OllamaAgent.invoke ⟨tools, Option.some schema⟩ (.success msg)
        jsonLoads).structured_output =
      Option.some (.parseError ("Failed to parse structured output: " ++ m)) ∧
    (OllamaAgent.invoke ⟨tools, Option.some schema⟩ (.success msg)
        jsonLoads).error = Option.none := by
  rcases hfail with hdec | ⟨fields, hobj, hval⟩
  · constructor <;> simp [OllamaAgent.invoke, hne, hdec]
  · constructor <;> simp [OllamaAgent.invoke, hne, hobj, hval]

/-- C5 (amended), witness: content `"oops"` is non-empty and fails to
decode; the error string lands in `structured_output`. -/
theorem c5_parse_failure_reported_witness :
    (("oops" : String) ≠ "") ∧
    (jsonLoadsStrict "oops" =
      .decodeError "Expecting value: line 1 column 1 (char 0)" ∨
      ∃ fields, jsonLoadsStrict "oops" = .obj fields ∧
        permissiveSchema.validate fields =
          Except.error "Expecting value: line 1 column 1 (char 0)") ∧
    ((OllamaAgent.invoke ⟨[], Option.some permissiveSchema⟩
        (.success ⟨"oops", Option.none⟩) jsonLoadsStrict).structured_output =
      Option.some (.parseError ("Failed to parse structured output: " ++
        "Expecting value: line 1 column 1 (char 0)")) ∧
    (OllamaAgent.invoke ⟨[], Option.some permissiveSchema⟩
        (.success ⟨"oops", Option.none⟩) jsonLoadsStrict).error =
      Option.none) :=
  ⟨by decide, Or.inl rfl,
    c5_parse_failure_reported [] permissiveSchema ⟨"oops", Option.none⟩
      jsonLoadsStrict "Expecting value: line 1 column 1 (char 0)"
      (by decide) (Or.inl rfl)⟩

/-- C8: when the agent was constructed without a structured-output
contract (`output_schema is None`), every successful response — whatever
its content and tool calls, and however `json.loads` would behave —
yields a result whose `structured_output` is null (line 154 is never
overwritten because line 173's `if self.output_schema` is false). -/
theorem c8_no_schema_structured_output_none (tools : List Tool)
    (msg : ResponseMessage) (jsonLoads : String → JsonLoadOutcome) :
    (OllamaAgent.invoke ⟨tools, Option.none⟩ (.success msg)
        jsonLoads).structured_output = Option.none := by
  simp [OllamaAgent.invoke]

/-- C10: with a contract configured, a successful response whose message
content is the empty string skips the parse attempt entirely — the result
holds for EVERY `json.loads` behaviour, so the parser is never consulted —
and `structured_output` is null, not an error string, even though `""` is
not valid JSON; the call completes with no `error` field. -/
theorem c10_empty_content_skips_parse (tools : List Tool)
    (schema : OutputSchema) (tcs : Option (List ToolCall))
    (jsonLoads : String → JsonLoadOutcome) :
    (OllamaAgent.invoke ⟨tools, Option.some schema⟩ (.success ⟨"", tcs⟩)
        jsonLoads).structured_output = Option.none ∧
    (OllamaAgent.invoke ⟨tools, Option.some schema⟩ (.success ⟨"", tcs⟩)
        jsonLoads).error = Option.none := by
  constructor <;> simp [OllamaAgent.invoke]

/-- C6: `_generate_tool_schemas` produces exactly one schema per registered
callable; the schema at each input position is the schema of the callable
at that position (order preserved); and a parameter name belongs to that
schema's `required` list exactly when the callable has a parameter of that
name lacking a default value (lines 88–90). -/
theorem c6_one_schema_per_callable_required_exact (tools : List Tool)
    (i : Nat) (t : Tool) (h : tools[i]? = Option.some t) :
    (generateToolSchemas tools).length = tools.length ∧
    (generateToolSchemas tools)[i]? = Option.some (toolFunctionSchema t) ∧
    (toolFunctionSchema t).name = t.name ∧
    ∀ pname, pname ∈ (toolFunctionSchema t).required ↔
      ∃ p ∈ t.params, p.name = pname ∧ p.hasDefault = false := by
  refine ⟨List.length_map tools toolFunctionSchema, ?_, rfl, ?_⟩
  · rw [generateToolSchemas, List.getElem?_map, h]
    rfl
  · intro pname
    simp only [toolFunctionSchema, List.mem_map, List.mem_filter,
      Bool.not_eq_true']
    constructor
    · rintro ⟨p, ⟨hp, hd⟩, hn⟩
      exact ⟨p, hp, hn, hd⟩
    · rintro ⟨p, hp, hn, hd⟩
      exact ⟨p, ⟨hp, hd⟩, hn⟩

/-- C6, witness: the two-tool example registry at position `0`. -/
theorem c6_one_schema_per_callable_required_exact_witness :
    ([getProduct, calculateSum][0]? = Option.some getProduct) ∧
    ((generateToolSchemas [getProduct, calculateSum]).length =
        [getProduct, calculateSum].length ∧
      (generateToolSchemas [getProduct, calculateSum])[0]? =
        Option.some (toolFunctionSchema getProduct) ∧
      (toolFunctionSchema getProduct).name = getProduct.name ∧
      ∀ pname, pname ∈ (toolFunctionSchema getProduct).required ↔
        ∃ p ∈ getProduct.params, p.name = pname ∧ p.hasDefault = false) :=
  ⟨rfl, c6_one_schema_per_callable_required_exact [getProduct, calculateSum]
      0 getProduct rfl⟩

/-- C7: the inferred property list records, for every parameter in
signature order, the schema type given by `paramSchemaType`, and that map
sends the `int` annotation to `"integer"`, `float` to `"number"`, `bool`
to `"boolean"`, the sequence annotation `list` to `"array"`, every other
annotation to `"string"`, and an absent annotation to `"string"`
(lines 69–86; the code tests exactly the builtin classes). -/
theorem c7_annotation_type_mapping :
    (∀ t : Tool, (toolFunctionSchema t).properties = t.params.map fun p =>
      (p.name, ⟨paramSchemaType p.annotation, "Parameter " ++ p.name⟩)) ∧
    paramSchemaType PyAnn.int = "integer" ∧
    paramSchemaType PyAnn.float = "number" ∧
    paramSchemaType PyAnn.bool = "boolean" ∧
    paramSchemaType PyAnn.list = "array" ∧
    paramSchemaType PyAnn.empty = "string" ∧
    ∀ r, paramSchemaType (PyAnn.other r) = "string" :=
  ⟨fun _ => rfl, rfl, rfl, rfl, rfl, rfl, fun _ => rfl⟩

/-- Starting from `value = None`, the two innermost entry loops agree: at
the first qualifying entry, version 2's guard `value is None or form ==
'10-Q'` is true (because `value` is still `None`), so it assigns exactly
as version 1 does; and both `break` there. -/
theorem entryLoop2_eq_entryLoop1 (periodEnd : String) (es : List FactEntry) :
    entryLoop2 periodEnd Option.none es = entryLoop1 periodEnd Option.none es := by
  induction es with
  | nil => rfl
  | cons e rest ih =>
    by_cases h1 : e.endDate = Option.some periodEnd ∧ e.val.isSome
    · by_cases h2 : e.form = Option.some "10-Q" ∨ e.form = Option.some "10-K"
      · simp [entryLoop1, entryLoop2, h1, h2]
      · simp [entryLoop1, entryLoop2, h1, h2, ih]
    · simp [entryLoop1, entryLoop2, h1, ih]

/-- Starting from `value = None`, the two unit-type loops agree. -/
theorem unitLoop2_eq_unitLoop1 (periodEnd : String)
    (us : List (List FactEntry)) :
    unitLoop2 periodEnd Option.none us = unitLoop1 periodEnd Option.none us := by
  induction us with
  | nil => rfl
  | cons u rest ih =>
    simp only [unitLoop1, unitLoop2, entryLoop2_eq_entryLoop1]
    cases hv : entryLoop1 periodEnd Option.none u with
    | none => simpa [hv] using ih
    | some x => simp [hv]

/-- Starting from `value = None`, the two tag loops agree. -/
theorem tagLoop2_eq_tagLoop1 (usGaap : UsGaap) (periodEnd : String)
    (tags : List String) :
    tagLoop2 usGaap periodEnd Option.none tags =
      tagLoop1 usGaap periodEnd Option.none tags := by
  induction tags with
  | nil => rfl
  | cons tag rest ih =>
    simp only [tagLoop1, tagLoop2]
    cases hf : List.find? (fun kv => kv.1 == tag) usGaap with
    | none => simpa [hf] using ih
    | some kv =>
      dsimp only
      rw [unitLoop2_eq_unitLoop1]
      cases hv : unitLoop1 periodEnd Option.none kv.2 with
      | none => simpa [hv] using ih
      | some x => simp [hv]

/-- The two versions select the same value for every metric: version 2's
extra guard is dead code because `value` is necessarily `None` when the
first qualifying entry is reached, and the `break` runs regardless. -/
theorem metricValue1_eq_metricValue2 (usGaap : UsGaap)
    (possibleTags : List String) (periodEnd : String) :
    metricValue1 usGaap possibleTags periodEnd =
      metricValue2 usGaap possibleTags periodEnd :=
  (tagLoop2_eq_tagLoop1 usGaap periodEnd possibleTags).symm

/-- C9, counterexample to the claimed non-equivalence: there is NO
us-gaap fact table, tag list and period end on which the two versions'
value selection differs — the negation of the claim. -/
theorem c9_no_differing_input :
    ¬ ∃ (usGaap : UsGaap) (possibleTags : List String) (periodEnd : String),
      metricValue1 usGaap possibleTags periodEnd ≠
        metricValue2 usGaap possibleTags periodEnd :=
  fun ⟨u, ts, pe, hne⟩ => hne (metricValue1_eq_metricValue2 u ts pe)

/-- C9, amended: the "prefer quarterly over annual" value-selection logic
of the two SEC downloaders IS equivalent — for every sequence of fact
entries for one period end, both versions select the same value (the first
entry, in tag/unit/entry order, matching the period with a `val` and form
`10-Q` or `10-K`).  The syntactically different tie-break in version 2 is
unreachable in a differing state, since `value` is always `None` when its
guard is evaluated. -/
theorem c9_selection_logic_equivalent (usGaap : UsGaap)
    (possibleTags : List String) (periodEnd : String) :
    metricValue1 usGaap possibleTags periodEnd =
      metricValue2 usGaap possibleTags periodEnd :=
  metricValue1_eq_metricValue2 usGaap possibleTags periodEnd

